import Mathlib

/-!
# ZenBeasts bot-hub supervisor: shallow embedding and verification

This file embeds the bot-lifecycle supervision subsystem of the ZenBeasts
bot hub (`bot-hub/bot_base.py`, `bot-hub/orchestrator.py`,
`bot-hub/utils/db.py`, `bot-hub/bots/monitoring_bot.py`) in Lean 4 and
proves properties of the embedded operations.

Modelling conventions:
* Python dictionaries held by reference (`self.stats` and the dictionaries
  returned by `get_stats()` / `health_check()`) are modelled with a small
  heap `Heap`: an association list from reference numbers to `Stats`
  values plus an allocation counter.  `dict.copy()` is an allocation of a
  fresh reference holding the same value; in-place mutation is `Heap.set`
  at an existing reference.  This makes aliasing and copying observable.
* A Python exception is modelled by an `Option String` outcome (`none` =
  normal return, `some msg` = an exception carrying message `msg`) threaded
  explicitly; a `try/except` block is a `match` on that outcome.
* Clock reads (`time.time()`, `datetime.now().isoformat()`) are passed in
  as explicit parameters (`Nat` for epoch seconds, `String` for ISO
  timestamps).
* The SQLite table `bot_errors` is an in-memory list of rows plus an
  autoincrement counter; `ORDER BY timestamp DESC` is insertion sort on
  the (ISO string) timestamp, which SQLite compares as text.
* Calls into the execution pool and worker lifecycle calls made by the
  orchestrator are recorded as a `PoolAction` trace so that ordering and
  multiplicity claims can be stated.
-/

/-- The `self.stats` dictionary initialised in `BotBase.__init__`
(bot_base.py lines 25-31). -/
structure Stats where
  start_time : Option Nat
  total_runs : Nat
  successful_runs : Nat
  failed_runs : Nat
  last_error : Option String
deriving Repr, DecidableEq

/-- `BotBase.__init__`: all counters zero, no start time, no last error. -/
def Stats.mkInitial : Stats :=
  { start_time := none, total_runs := 0, successful_runs := 0
    failed_runs := 0, last_error := none }

/-- A heap of Python dictionaries: reference number ↦ current `Stats`
value, plus the next fresh reference.  `store` is ordered with the most
recent write first. -/
structure Heap where
  store : List (Nat × Stats)
  next : Nat
deriving Repr, DecidableEq

/-- Dereference: the current value of the dictionary at `r` (out-of-model
references read as the initial dictionary; all theorems only dereference
live references). -/
def Heap.get (h : Heap) (r : Nat) : Stats :=
  match h.store.lookup r with
  | some s => s
  | none => Stats.mkInitial

/-- In-place mutation of the dictionary at `r`. -/
def Heap.set (h : Heap) (r : Nat) (v : Stats) : Heap :=
  { store := (r, v) :: h.store, next := h.next }

/-- Allocate a fresh dictionary holding `v` (models `dict(...)` literals
and `dict.copy()`); returns the new heap and the fresh reference. -/
def Heap.alloc (h : Heap) (v : Stats) : Heap × Nat :=
  ({ store := (h.next, v) :: h.store, next := h.next + 1 }, h.next)

/-- The supervisor-visible state of one worker (`BotBase`, bot_base.py):
name, `running` and `healthy` flags, `last_activity`, and the reference to
its `self.stats` dictionary. -/
structure BotBase where
  name : String
  running : Bool
  healthy : Bool
  last_activity : Option String
  statsRef : Nat
deriving Repr, DecidableEq

/-- `BotBase.__init__` (bot_base.py lines 19-31): running false, healthy
true, no last activity, a freshly allocated stats dictionary. -/
def BotBase.mkInitial (name : String) (h : Heap) : BotBase × Heap :=
  let (h', r) := h.alloc Stats.mkInitial
  ({ name := name, running := false, healthy := true
     last_activity := none, statsRef := r }, h')

/-- `BotBase.is_healthy` (bot_base.py lines 84-86). -/
def BotBase.is_healthy (b : BotBase) : Bool := b.healthy

/-- `BotBase.is_running` (bot_base.py lines 80-82). -/
def BotBase.is_running (b : BotBase) : Bool := b.running

/-- `BotBase.get_stats` (bot_base.py lines 92-94): `return
self.stats.copy()` — allocates a fresh dictionary holding the current
value of `self.stats` and returns (new heap, reference to the copy). -/
def BotBase.get_stats (b : BotBase) (h : Heap) : Heap × Nat :=
  h.alloc (h.get b.statsRef)

/-- The dictionary returned by `BotBase.health_check` (bot_base.py lines
96-104).  `stats` is the reference stored under the `'stats'` key: the
source returns `self.stats` itself, so the snapshot holds the worker's own
stats reference, not a copy. -/
structure HealthSnapshot where
  healthy : Bool
  running : Bool
  last_activity : Option String
  uptime : Option Nat
  statsRef : Nat
deriving Repr, DecidableEq

/-- `BotBase.health_check` (bot_base.py lines 96-104), with `now` the
current epoch time used by `_get_uptime`. -/
def BotBase.health_check (b : BotBase) (h : Heap) (now : Nat) : HealthSnapshot :=
  { healthy := b.healthy
    running := b.running
    last_activity := b.last_activity
    uptime := (h.get b.statsRef).start_time.map (fun st => now - st)
    statsRef := b.statsRef }

/-- The pure effect of `BotBase._record_run` on the stats dictionary
(bot_base.py lines 112-119): increment `total_runs`, and on success
increment `successful_runs`, otherwise increment `failed_runs` and set
`last_error`. -/
def recordRunStats (s : Stats) (success : Bool) (error : Option String) : Stats :=
  if success then
    { s with total_runs := s.total_runs + 1
             successful_runs := s.successful_runs + 1 }
  else
    { s with total_runs := s.total_runs + 1
             failed_runs := s.failed_runs + 1
             last_error := error }

/-- `BotBase._record_run` (bot_base.py lines 112-121): mutate the stats
dictionary in place, then set `self.last_activity` to the current ISO
timestamp `now`. -/
def BotBase.record_run (b : BotBase) (h : Heap) (success : Bool)
    (error : Option String) (now : String) : BotBase × Heap :=
  ({ b with last_activity := some now },
   h.set b.statsRef (recordRunStats (h.get b.statsRef) success error))

/-- `BotBase.safe_run` (bot_base.py lines 128-138), parameterised by the
outcome of `self.run()`: on normal return record a successful run; on an
exception with message `e` record a failed run with `error := str(e)` and
set `self.healthy = False`.  Both branches return normally. -/
def BotBase.safe_run (b : BotBase) (h : Heap) (runExc : Option String)
    (now : String) : BotBase × Heap :=
  match runExc with
  | none => b.record_run h true none now
  | some e =>
    let (b', h') := b.record_run h false (some e) now
    ({ b' with healthy := false }, h')

/-- One row of the SQLite table `bot_errors` (db.py migration 001, lines
367-377): autoincrement `id`, `bot_name`, `error`, `severity` (column
default `'ERROR'`), ISO-string `timestamp`. -/
structure ErrorRecord where
  id : Nat
  bot_name : String
  error : String
  severity : String
  timestamp : String
deriving Repr, DecidableEq

/-- The `bot_errors` table: rows in insertion order plus the autoincrement
counter. -/
structure BotErrorsTable where
  rows : List ErrorRecord
  next_id : Nat
deriving Repr, DecidableEq

def BotErrorsTable.emptyTable : BotErrorsTable := { rows := [], next_id := 1 }

/-- `Database.log_bot_error` (db.py lines 499-509): `INSERT INTO
bot_errors (bot_name, error, severity, timestamp)` with `timestamp =
datetime.now().isoformat()`, passed here as `ts`. -/
def log_bot_error (t : BotErrorsTable) (bot_name error severity ts : String) :
    BotErrorsTable :=
  { rows := t.rows ++ [{ id := t.next_id, bot_name := bot_name, error := error
                         severity := severity, timestamp := ts }]
    next_id := t.next_id + 1 }

/-- `BotOrchestrator._record_bot_error` (orchestrator.py lines 225-230):
`INSERT INTO bot_errors (bot_name, error, timestamp)`; the `severity`
column takes its schema default `'ERROR'`. -/
def record_bot_error (t : BotErrorsTable) (bot_name error ts : String) :
    BotErrorsTable :=
  log_bot_error t bot_name error "ERROR" ts

/-- Insert one row into a list sorted by `timestamp` descending (SQLite
compares `TEXT` timestamps lexicographically). -/
def insertDescByTimestamp (r : ErrorRecord) : List ErrorRecord → List ErrorRecord
  | [] => [r]
  | x :: xs =>
    if x.timestamp < r.timestamp then r :: x :: xs
    else x :: insertDescByTimestamp r xs

/-- `ORDER BY timestamp DESC` as an insertion sort. -/
def sortByTimestampDesc (rs : List ErrorRecord) : List ErrorRecord :=
  rs.foldr insertDescByTimestamp []

/-- `Database.get_bot_errors` (db.py lines 522-532): `SELECT * FROM
bot_errors WHERE bot_name = ? ORDER BY timestamp DESC LIMIT ?`. -/
def get_bot_errors (t : BotErrorsTable) (bot_name : String) (limit : Nat) :
    List ErrorRecord :=
  (sortByTimestampDesc (t.rows.filter (fun r => r.bot_name == bot_name))).take limit

/-- Worker-lifecycle and execution-pool calls made by the orchestrator,
recorded as a trace: `stop name` is `self.bots[name].stop()`, `wait s` is
`time.sleep(s)`, `submit name` is `self.executor.submit(self._run_bot,
name, self.bots[name])`. -/
inductive PoolAction where
  | stop (name : String)
  | wait (seconds : Nat)
  | submit (name : String)
deriving Repr, DecidableEq

/-- Orchestrator state used by the embedded operations: the worker
registry `self.bots` (a Python dict, modelled as an association list in
insertion order with unique keys) and the `bot_errors` table of the
database. -/
structure OrchState where
  bots : List (String × BotBase)
  bot_errors : BotErrorsTable
deriving Repr, DecidableEq

/-- `self.bots[name]` lookup / `name in self.bots`. -/
def lookupBot (name : String) (bots : List (String × BotBase)) : Option BotBase :=
  bots.lookup name

/-- `del self.bots[name]`: remove the (unique) entry for `name`. -/
def eraseBot (name : String) (bots : List (String × BotBase)) :
    List (String × BotBase) :=
  bots.eraseP (fun p => p.1 == name)

/-- The state effects every concrete bot's `start()` performs before
entering its main loop (e.g. monitoring_bot.py lines 66-73,
twitter_bot.py lines 107-114, content_bot.py lines 72-82): set
`self.running = True`, set `self.stats['start_time'] = time.time()`, then
invoke the run loop, whose exception — when the loop lets one escape —
propagates out of `start()`.  `runExc` is that outcome. -/
def startBot (b : BotBase) (h : Heap) (now : Nat) (runExc : Option String) :
    (BotBase × Heap) × Option String :=
  let b' := { b with running := true }
  let h' := h.set b.statsRef { h.get b.statsRef with start_time := some now }
  ((b', h'), runExc)

/-- `BotOrchestrator._run_bot` (orchestrator.py lines 161-168): the
per-worker execution-pool task.  Invokes `bot.start()`; on an uncaught
exception it logs and records the error via `_record_bot_error`.  It
returns normally in both cases and never rethrows. -/
def run_bot (bot_name : String) (b : BotBase) (h : Heap)
    (errs : BotErrorsTable) (now : Nat) (ts : String)
    (runExc : Option String) : BotBase × Heap × BotErrorsTable :=
  match startBot b h now runExc with
  | ((b', h'), none) => (b', h', errs)
  | ((b', h'), some e) => (b', h', record_bot_error errs bot_name e ts)

/-- `BotOrchestrator.stop_bot` (orchestrator.py lines 239-246),
parameterised by the outcome `stopExc` of the worker's `stop()` call: if
`name` is registered, call `stop()` (whose exception, not being caught
here, would propagate) and delete the registry entry; otherwise only log a
warning — no worker call, no state change, no exception possible. -/
def stop_bot (stopExc : Option String) (name : String) (st : OrchState) :
    Except String (OrchState × List PoolAction) :=
  match lookupBot name st.bots with
  | some _ =>
    match stopExc with
    | some e => .error e
    | none => .ok ({ st with bots := eraseBot name st.bots }, [.stop name])
  | none => .ok (st, [])

/-- `BotOrchestrator.restart_bot` (orchestrator.py lines 248-256): if
`name` is registered, `stop()` the worker, `time.sleep(2)`, then submit
`_run_bot` for it to the execution pool; otherwise log a warning and do
nothing.  The registry itself is not modified. -/
def restart_bot (name : String) (st : OrchState) : List PoolAction :=
  match lookupBot name st.bots with
  | some _ => [.stop name, .wait 2, .submit name]
  | none => []

/-- `BotOrchestrator._attempt_bot_restart` (orchestrator.py lines
214-223), parameterised by the outcome of `bot.stop()`: on success, stop,
wait the 2-second grace period, resubmit; if `stop()` raises, the
exception is caught and logged and no resubmission happens. -/
def attempt_bot_restart (stopExc : Option String) (name : String) :
    List PoolAction :=
  match stopExc with
  | none => [.stop name, .wait 2, .submit name]
  | some _ => [.stop name]

/-- One poll cycle of `BotOrchestrator._health_check_loop` (orchestrator.py
lines 199-212): for every registered worker, read `is_healthy()`; if it is
false, log a warning and attempt a restart; if it is true, do nothing to
that worker.  `stopExc name` gives the outcome of that worker's `stop()`
should a restart be attempted. -/
def health_check_cycle (stopExc : String → Option String)
    (bots : List (String × BotBase)) : List PoolAction :=
  bots.foldr
    (fun p acc =>
      (if p.2.is_healthy then [] else attempt_bot_restart (stopExc p.1) p.1) ++ acc)
    []

/-- `MonitoringBot.stop` (monitoring_bot.py lines 75-78): set
`self.running = False`. -/
def monitoring_stop (b : BotBase) : BotBase := { b with running := false }

/-- `MonitoringBot.start` (monitoring_bot.py lines 66-73): set
`self.running = True`, record `start_time`, then enter `run()`.  Returns
the state as of entering the run loop. -/
def monitoring_start (b : BotBase) (h : Heap) (now : Nat) : BotBase × Heap :=
  ({ b with running := true },
   h.set b.statsRef { h.get b.statsRef with start_time := some now })

/-- One iteration of `MonitoringBot.run`'s `while self.running` loop
(monitoring_bot.py lines 80-106): `ok = true` means the body ran without
an exception (metric collection, service checks, storage all succeeded) —
no `BotBase` field changes; `ok = false` means the body raised and the
`except` branch set `self.healthy = False`. -/
def monitoring_run_cycle (b : BotBase) (ok : Bool) : BotBase :=
  if ok then b else { b with healthy := false }

/-- The value held by the dictionary that `get_stats()` returns. -/
def BotBase.get_stats_value (b : BotBase) (h : Heap) : Stats :=
  Heap.get (b.get_stats h).1 (b.get_stats h).2

/-- A concrete heap with one live stats dictionary at reference 0. -/
def testHeap : Heap := { store := [(0, Stats.mkInitial)], next := 1 }

/-- A concrete started worker whose stats dictionary lives at reference 0
of `testHeap`. -/
def testBot : BotBase :=
  { name := "MonitoringBot", running := true, healthy := true
    last_activity := none, statsRef := 0 }

/-- A concrete worker whose `healthy` flag has been cleared. -/
def unhealthyBot : BotBase :=
  { name := "MonitoringBot", running := true, healthy := false
    last_activity := none, statsRef := 0 }

/-- A concrete `bot_errors` table holding one older record. -/
def testErrTable : BotErrorsTable :=
  { rows := [{ id := 1, bot_name := "monitoring_bot", error := "old failure"
               severity := "ERROR", timestamp := "t1" }]
    next_id := 2 }

/-- A concrete orchestrator state whose registry holds exactly
`testBot` under the name `"monitoring_bot"`. -/
def testState : OrchState :=
  { bots := [("monitoring_bot", testBot)]
    bot_errors := BotErrorsTable.emptyTable }

theorem Heap.get_set_same (h : Heap) (r : Nat) (v : Stats) :
    (h.set r v).get r = v := by
  simp [Heap.get, Heap.set, List.lookup]

theorem Heap.get_set_ne (h : Heap) (r r' : Nat) (v : Stats) (hne : r' ≠ r) :
    (h.set r v).get r' = h.get r' := by
  have hb : (r' == r) = false := by simpa using hne
  simp [Heap.get, Heap.set, List.lookup, hb]

/-- C9: at construction all counters are zero, so
`total_runs = successful_runs + failed_runs` holds; `_record_run`
increments `total_runs` by exactly 1 and exactly one of
`successful_runs` / `failed_runs` by exactly 1 (the other is unchanged),
so the invariant is preserved; and `BotBase.record_run` applies exactly
this update to the worker's stats dictionary. -/
theorem record_run_preserves_stats_invariant (s : Stats) (success : Bool)
    (error : Option String)
    (hinv : s.total_runs = s.successful_runs + s.failed_runs) :
    Stats.mkInitial.total_runs
        = Stats.mkInitial.successful_runs + Stats.mkInitial.failed_runs ∧
    (recordRunStats s success error).total_runs = s.total_runs + 1 ∧
    (recordRunStats s success error).successful_runs
        = s.successful_runs + (if success then 1 else 0) ∧
    (recordRunStats s success error).failed_runs
        = s.failed_runs + (if success then 0 else 1) ∧
    (recordRunStats s success error).total_runs
        = (recordRunStats s success error).successful_runs
            + (recordRunStats s success error).failed_runs ∧
    ∀ (b : BotBase) (h : Heap) (now : String),
      Heap.get (b.record_run h success error now).2 b.statsRef
        = recordRunStats (h.get b.statsRef) success error := by
  refine ⟨rfl, ?_, ?_, ?_, ?_, ?_⟩
  · cases success <;> simp [recordRunStats]
  · cases success <;> simp [recordRunStats]
  · cases success <;> simp [recordRunStats]
  · cases success <;> simp [recordRunStats] <;> omega
  · intro b h now
    simp [BotBase.record_run, Heap.get_set_same]

/-- Witness for C9 at a concrete input: the invariant hypothesis holds for
the freshly constructed stats, and one failed recorded run takes
`failed_runs` from 0 to 1 while `total_runs` goes to 1. -/
theorem record_run_preserves_stats_invariant_witness :
    Stats.mkInitial.total_runs
        = Stats.mkInitial.successful_runs + Stats.mkInitial.failed_runs ∧
    (recordRunStats Stats.mkInitial false (some "boom")).total_runs
        = Stats.mkInitial.total_runs + 1 ∧
    (recordRunStats Stats.mkInitial false (some "boom")).failed_runs
        = Stats.mkInitial.failed_runs + (if false then 0 else 1) :=
  ⟨by decide,
   (record_run_preserves_stats_invariant Stats.mkInitial false (some "boom")
      (by decide)).2.1,
   (record_run_preserves_stats_invariant Stats.mkInitial false (some "boom")
      (by decide)).2.2.2.1⟩

/-- C2: when a started worker's `run()` raises inside `safe_run`, the
returned state — i.e. before control returns to the caller — has
`is_healthy() = false`, `get_stats()["failed_runs"]` incremented by
exactly 1 (`successful_runs` unchanged, `total_runs` incremented),
`last_error` set to the exception message, and `last_activity` set to the
current timestamp. -/
theorem safe_run_failure_updates (b : BotBase) (h : Heap) (e now : String)
    (_hstarted : b.running = true) :
    ((b.safe_run h (some e) now).1).is_healthy = false ∧
    (((b.safe_run h (some e) now).1).get_stats_value
        (b.safe_run h (some e) now).2).failed_runs
      = (b.get_stats_value h).failed_runs + 1 ∧
    (((b.safe_run h (some e) now).1).get_stats_value
        (b.safe_run h (some e) now).2).successful_runs
      = (b.get_stats_value h).successful_runs ∧
    (((b.safe_run h (some e) now).1).get_stats_value
        (b.safe_run h (some e) now).2).total_runs
      = (b.get_stats_value h).total_runs + 1 ∧
    (((b.safe_run h (some e) now).1).get_stats_value
        (b.safe_run h (some e) now).2).last_error = some e ∧
    ((b.safe_run h (some e) now).1).last_activity = some now := by
  have hval : ∀ (b' : BotBase) (h' : Heap), b'.get_stats_value h' = h'.get b'.statsRef := by
    intro b' h'
    simp [BotBase.get_stats_value, BotBase.get_stats, Heap.get, Heap.alloc,
      List.lookup]
  refine ⟨rfl, ?_, ?_, ?_, ?_, rfl⟩ <;>
    simp [hval, BotBase.safe_run, BotBase.record_run, Heap.get_set_same,
      recordRunStats]

/-- Witness for C2: the concrete started worker `testBot`, whose `run()`
raises `"boom"`. -/
theorem safe_run_failure_updates_witness :
    testBot.running = true ∧
    ((testBot.safe_run testHeap (some "boom") "t2").1).is_healthy = false ∧
    (((testBot.safe_run testHeap (some "boom") "t2").1).get_stats_value
        (testBot.safe_run testHeap (some "boom") "t2").2).failed_runs
      = (testBot.get_stats_value testHeap).failed_runs + 1 :=
  ⟨rfl,
   (safe_run_failure_updates testBot testHeap "boom" "t2" rfl).1,
   (safe_run_failure_updates testBot testHeap "boom" "t2" rfl).2.1⟩

/-- C6: `stop_bot` on an unregistered name returns normally (no
exception) with the registry unchanged and no worker operation performed,
whatever a worker `stop()` would have done; on a registered name it calls
`stop()` on that worker and then removes it from the registry. -/
theorem stop_bot_spec (stopExc : Option String) (name : String) (st : OrchState) :
    (lookupBot name st.bots = none →
      stop_bot stopExc name st = .ok (st, [])) ∧
    (∀ b, lookupBot name st.bots = some b →
      stop_bot none name st =
        .ok ({ st with bots := eraseBot name st.bots }, [.stop name])) := by
  constructor
  · intro habsent
    simp [stop_bot, habsent]
  · intro b hpresent
    simp [stop_bot, hpresent]

/-- Witness for C6: `testState` registers only `"monitoring_bot"`;
stopping the absent `"ghost"` is a no-op and stopping the present
`"monitoring_bot"` stops it and removes it. -/
theorem stop_bot_spec_witness :
    stop_bot (some "stop blew up") "ghost" testState = .ok (testState, []) ∧
    stop_bot none "monitoring_bot" testState =
      .ok ({ testState with bots := eraseBot "monitoring_bot" testState.bots },
           [.stop "monitoring_bot"]) :=
  ⟨(stop_bot_spec (some "stop blew up") "ghost" testState).1 rfl,
   (stop_bot_spec none "monitoring_bot" testState).2 testBot rfl⟩

/-- C3: `restart_bot` on a registered name produces exactly one
execution-pool submission for that name, and the trace is exactly
stop, 2-second grace wait, submit — so `stop()` is invoked strictly
before the resubmission. -/
theorem restart_bot_stop_before_single_resubmit (name : String)
    (st : OrchState) (b : BotBase) (hreg : lookupBot name st.bots = some b) :
    (restart_bot name st).count (PoolAction.submit name) = 1 ∧
    restart_bot name st =
      [PoolAction.stop name, PoolAction.wait 2, PoolAction.submit name] := by
  constructor
  · simp [restart_bot, hreg, List.count_cons]
  · simp [restart_bot, hreg]

/-- Witness for C3: restarting the registered `"monitoring_bot"` of
`testState`. -/
theorem restart_bot_stop_before_single_resubmit_witness :
    (restart_bot "monitoring_bot" testState).count
        (PoolAction.submit "monitoring_bot") = 1 ∧
    restart_bot "monitoring_bot" testState =
      [PoolAction.stop "monitoring_bot", PoolAction.wait 2,
       PoolAction.submit "monitoring_bot"] :=
  restart_bot_stop_before_single_resubmit "monitoring_bot" testState testBot rfl

/-- C4: a poll cycle of the health-check loop issues no `stop()` and no
resubmission for a worker whose `is_healthy()` read is true; only
unhealthy workers enter the restart path. -/
theorem healthy_worker_not_restarted (stopExc : String → Option String)
    (bots : List (String × BotBase)) (name : String)
    (hh : ∀ p ∈ bots, p.1 = name → p.2.is_healthy = true) :
    PoolAction.stop name ∉ health_check_cycle stopExc bots ∧
    PoolAction.submit name ∉ health_check_cycle stopExc bots := by
  induction bots with
  | nil => simp [health_check_cycle]
  | cons p rest ih =>
    have hrest := ih (fun q hq hq1 => hh q (List.mem_cons_of_mem _ hq) hq1)
    have hcycle : health_check_cycle stopExc (p :: rest)
        = (if p.2.is_healthy then []
           else attempt_bot_restart (stopExc p.1) p.1)
            ++ health_check_cycle stopExc rest := rfl
    by_cases hname : p.1 = name
    · have hhp : p.2.is_healthy = true := hh p (List.mem_cons_self _ _) hname
      rw [hcycle, hhp]
      simpa using hrest
    · rw [hcycle]
      cases hph : p.2.is_healthy with
      | true => simpa using hrest
      | false =>
        constructor
        · intro hmem
          rcases List.mem_append.mp hmem with hl | hr
          · cases hse : stopExc p.1 <;>
              simp [attempt_bot_restart, hse] at hl <;>
              exact hname hl.symm
          · exact hrest.1 hr
        · intro hmem
          rcases List.mem_append.mp hmem with hl | hr
          · cases hse : stopExc p.1 <;>
              simp [attempt_bot_restart, hse] at hl <;>
              exact hname hl.symm
          · exact hrest.2 hr

/-- Witness for C4: a registry with the healthy `testBot` under
`"monitoring_bot"` and the unhealthy `unhealthyBot` under
`"rewards_bot"`: the poll cycle neither stops nor resubmits
`"monitoring_bot"`. -/
theorem healthy_worker_not_restarted_witness :
    PoolAction.stop "monitoring_bot" ∉
      health_check_cycle (fun _ => none)
        [("monitoring_bot", testBot), ("rewards_bot", unhealthyBot)] ∧
    PoolAction.submit "monitoring_bot" ∉
      health_check_cycle (fun _ => none)
        [("monitoring_bot", testBot), ("rewards_bot", unhealthyBot)] :=
  healthy_worker_not_restarted (fun _ => none)
    [("monitoring_bot", testBot), ("rewards_bot", unhealthyBot)]
    "monitoring_bot" (by decide)

/-- C10: `get_stats()` returns a fresh copy of the statistics dictionary:
it holds the current statistics value, it is a different dictionary from
the worker's own `self.stats`, and mutating it (writing `v` through the
returned reference) changes neither the worker's internal statistics nor
the value a later `get_stats()` returns.  `hlive` says the worker's stats
dictionary was allocated in `h`. -/
theorem get_stats_returns_copy (b : BotBase) (h : Heap) (v : Stats)
    (hlive : b.statsRef < h.next) :
    Heap.get (b.get_stats h).1 (b.get_stats h).2 = h.get b.statsRef ∧
    (b.get_stats h).2 ≠ b.statsRef ∧
    Heap.get (Heap.set (b.get_stats h).1 (b.get_stats h).2 v) b.statsRef
      = h.get b.statsRef ∧
    BotBase.get_stats_value b (Heap.set (b.get_stats h).1 (b.get_stats h).2 v)
      = h.get b.statsRef := by
  have hne : b.statsRef ≠ h.next := Nat.ne_of_lt hlive
  have hb : (b.statsRef == h.next) = false := by simpa using hne
  refine ⟨?_, ?_, ?_, ?_⟩
  · simp [BotBase.get_stats, Heap.alloc, Heap.get, List.lookup]
  · simpa [BotBase.get_stats, Heap.alloc] using fun hc => hne hc.symm
  · simp [BotBase.get_stats, Heap.alloc, Heap.set, Heap.get, List.lookup, hb]
  · simp [BotBase.get_stats_value, BotBase.get_stats, Heap.alloc, Heap.set,
      Heap.get, List.lookup, hb]

/-- Witness for C10: the live worker `testBot` on `testHeap`; the copy
returned by `get_stats()` is overwritten with a poisoned dictionary and
the worker's statistics are unaffected. -/
theorem get_stats_returns_copy_witness :
    testBot.statsRef < testHeap.next ∧
    BotBase.get_stats_value testBot
        (Heap.set (testBot.get_stats testHeap).1 (testBot.get_stats testHeap).2
          { start_time := none, total_runs := 99, successful_runs := 0
            failed_runs := 99, last_error := some "poisoned" })
      = Heap.get testHeap testBot.statsRef :=
  ⟨by decide,
   (get_stats_returns_copy testBot testHeap
      { start_time := none, total_runs := 99, successful_runs := 0
        failed_runs := 99, last_error := some "poisoned" }
      (by decide)).2.2.2⟩

/-- C7 counterexample: the claim says a recorded Health Snapshot is not
altered by later mutation of the worker's statistics.  On the concrete
worker `testBot`, take the snapshot `testBot.health_check testHeap 0`,
then record one failed run; the statistics read through the snapshot's
stored `stats` dictionary have changed, because `health_check` stores
`self.stats` itself rather than a copy. -/
theorem health_check_snapshot_mutated_counterexample :
    Heap.get (testBot.record_run testHeap false (some "boom") "t2").2
        (testBot.health_check testHeap 0).statsRef
      ≠ Heap.get testHeap (testBot.health_check testHeap 0).statsRef := by
  decide

/-- C7 amended: the Health Snapshot produced by `health_check()` contains
the worker's run-statistics dictionary itself, not a copy: the snapshot's
`stats` entry is the worker's own `self.stats` reference, so a subsequent
`_record_run` mutation is visible through a previously produced
snapshot. -/
theorem health_check_aliases_stats (b : BotBase) (h : Heap) (now : Nat)
    (success : Bool) (error : Option String) (ts : String) :
    (b.health_check h now).statsRef = b.statsRef ∧
    Heap.get (b.record_run h success error ts).2
        (b.health_check h now).statsRef
      = recordRunStats (h.get b.statsRef) success error := by
  refine ⟨rfl, ?_⟩
  simp [BotBase.health_check, BotBase.record_run, Heap.get_set_same]

/-- C1 counterexample: the claim says an uncaught exception from `run()`
reaching the Execution Pool boundary clears the worker's healthy flag.  On
the concrete healthy worker `testBot` whose `run()` raises `"boom"`, the
pool task wrapper `_run_bot` catches the exception and records the Error
Record, but the worker's healthy flag is still true afterwards. -/
theorem run_bot_keeps_healthy_counterexample :
    ((run_bot "monitoring_bot" testBot testHeap BotErrorsTable.emptyTable
        0 "t2" (some "boom")).1).healthy = true ∧
    (run_bot "monitoring_bot" testBot testHeap BotErrorsTable.emptyTable
        0 "t2" (some "boom")).2.2.rows
      = [{ id := 1, bot_name := "monitoring_bot", error := "boom"
           severity := "ERROR", timestamp := "t2" }] := by
  constructor <;> rfl

/-- C1 amended: an uncaught exception from `run()` that reaches the
Execution Pool boundary (`_run_bot`) is caught there — the wrapper always
returns normally, so nothing propagates to the orchestrator — and an
Error Record for the worker is appended to the `bot_errors` table; the
worker's healthy flag, however, is left exactly as it was (the wrapper
never clears it; the flag is cleared only by the worker's own
failure-recording path). -/
theorem run_bot_catches_and_records (bot_name : String) (b : BotBase)
    (h : Heap) (errs : BotErrorsTable) (now : Nat) (ts e : String) :
    (run_bot bot_name b h errs now ts (some e)).2.2.rows
      = errs.rows ++ [{ id := errs.next_id, bot_name := bot_name, error := e
                        severity := "ERROR", timestamp := ts }] ∧
    ((run_bot bot_name b h errs now ts (some e)).1).healthy = b.healthy ∧
    ((run_bot bot_name b h errs now ts (some e)).1).running = true := by
  refine ⟨?_, rfl, rfl⟩
  simp [run_bot, startBot, record_bot_error, log_bot_error]

/-- C5 (code bug): the spec's state machine re-enters `healthy` after a
successful restart with no subsequent failure, but no code path ever
resets the healthy flag: after `_attempt_bot_restart`'s stop + resubmit
of the concrete unhealthy `MonitoringBot` and a fully successful run
cycle, the worker is running again yet `is_healthy()` is still false. -/
theorem restart_leaves_worker_unhealthy :
    (monitoring_run_cycle
        (monitoring_start (monitoring_stop unhealthyBot) testHeap 5).1
        true).is_running = true ∧
    (monitoring_run_cycle
        (monitoring_start (monitoring_stop unhealthyBot) testHeap 5).1
        true).is_healthy = false := by
  constructor <;> rfl

/-- Folding `insertDescByTimestamp` over rows that are all strictly older
than `r` into an accumulator headed by `r` keeps `r` at the head. -/
theorem foldr_insertDesc_newest (r : ErrorRecord) :
    ∀ (l : List ErrorRecord) (tail : List ErrorRecord),
      (∀ y ∈ l, y.timestamp < r.timestamp) →
      ∃ tail', l.foldr insertDescByTimestamp (r :: tail) = r :: tail' := by
  intro l
  induction l with
  | nil => exact fun tail _ => ⟨tail, rfl⟩
  | cons y ys ih =>
    intro tail hy
    obtain ⟨tail', ht⟩ := ih tail (fun z hz => hy z (List.mem_cons_of_mem _ hz))
    have hyr : y.timestamp < r.timestamp := hy y (List.mem_cons_self _ _)
    refine ⟨insertDescByTimestamp y tail', ?_⟩
    calc List.foldr insertDescByTimestamp (r :: tail) (y :: ys)
        = insertDescByTimestamp y (r :: tail') := by rw [List.foldr_cons, ht]
      _ = r :: insertDescByTimestamp y tail' := by
            simp only [insertDescByTimestamp]
            rw [if_neg (lt_asymm hyr)]

/-- C8: write-then-read round trip for Error Records.  If every timestamp
already in the table is strictly older than the written timestamp `ts`
(the clock is monotone and ISO timestamps compare as text in timestamp
order) and at least one row is requested, then `get_bot_errors` for the
written bot name returns a record whose `bot_name`, `error` and
`timestamp` fields are identical to the ones written — in fact it is the
first record returned. -/
theorem log_bot_error_roundtrip (t : BotErrorsTable) (n e sev ts : String)
    (limit : Nat) (hfresh : ∀ r ∈ t.rows, r.timestamp < ts)
    (hlim : 1 ≤ limit) :
    ∃ rec ∈ get_bot_errors (log_bot_error t n e sev ts) n limit,
      rec.bot_name = n ∧ rec.error = e ∧ rec.timestamp = ts := by
  obtain ⟨k, rfl⟩ : ∃ k, limit = k + 1 := ⟨limit - 1, by omega⟩
  have hfilter :
      (log_bot_error t n e sev ts).rows.filter (fun r => r.bot_name == n)
        = t.rows.filter (fun r => r.bot_name == n)
            ++ [{ id := t.next_id, bot_name := n, error := e
                  severity := sev, timestamp := ts }] := by
    simp [log_bot_error, List.filter_append]
  have hfreshf : ∀ y ∈ t.rows.filter (fun r => r.bot_name == n),
      y.timestamp
        < ErrorRecord.timestamp { id := t.next_id, bot_name := n, error := e
                                  severity := sev, timestamp := ts } :=
    fun y hy => hfresh y (List.mem_of_mem_filter hy)
  obtain ⟨tail', ht⟩ :=
    foldr_insertDesc_newest
      { id := t.next_id, bot_name := n, error := e
        severity := sev, timestamp := ts }
      (t.rows.filter (fun r => r.bot_name == n)) [] hfreshf
  have hsorted :
      sortByTimestampDesc
          ((log_bot_error t n e sev ts).rows.filter (fun r => r.bot_name == n))
        = { id := t.next_id, bot_name := n, error := e
            severity := sev, timestamp := ts } :: tail' := by
    rw [hfilter, sortByTimestampDesc, List.foldr_append]
    exact ht
  refine ⟨{ id := t.next_id, bot_name := n, error := e
            severity := sev, timestamp := ts }, ?_, rfl, rfl, rfl⟩
  rw [get_bot_errors, hsorted, List.take_succ_cons]
  exact List.mem_cons_self _ _

/-- Witness for C8: writing `"boom"` for `"monitoring_bot"` at the fresh
timestamp `"t3"` into the concrete table `testErrTable` (whose only row
is older) and reading back with the default limit 100. -/
theorem log_bot_error_roundtrip_witness :
    ∃ rec ∈ get_bot_errors
        (log_bot_error testErrTable "monitoring_bot" "boom" "ERROR" "t3")
        "monitoring_bot" 100,
      rec.bot_name = "monitoring_bot" ∧ rec.error = "boom" ∧
        rec.timestamp = "t3" :=
  log_bot_error_roundtrip testErrTable "monitoring_bot" "boom" "ERROR" "t3"
    100
    (by
      intro r hr
      simp only [testErrTable, List.mem_singleton] at hr
      rw [hr, String.lt_iff_toList_lt]
      decide)
    (by decide)
